import Mathlib

/-!
Shallow embedding of `src/temporal_binary_switch.hpp`.

The C++ class `TemporalBinarySwitch` holds three `bool` members
(`state`, `m_just_switched_on`, `m_just_switched_off`).  Mutating member
functions are modelled as functions from the switch value to the updated
switch value; member functions that return a `bool` are modelled as
functions returning a pair of the result and the (possibly updated)
switch value, so that `const` members visibly leave the value unchanged.
-/

structure TemporalBinarySwitch where
  state : Bool
  m_just_switched_on : Bool
  m_just_switched_off : Bool
deriving DecidableEq, Repr

namespace TemporalBinarySwitch

/-- Default constructor (hpp line 89 together with the member
initializers on lines 82-84): every field starts out `false`. -/
def init : TemporalBinarySwitch :=
  { state := false, m_just_switched_on := false, m_just_switched_off := false }

/-- Member `set_true` (hpp lines 110-118). -/
def set_true (s : TemporalBinarySwitch) : TemporalBinarySwitch :=
  if !s.state then
    { state := true, m_just_switched_on := true, m_just_switched_off := false }
  else
    { s with m_just_switched_on := false, state := true }

/-- Member `set_false` (hpp lines 126-134). -/
def set_false (s : TemporalBinarySwitch) : TemporalBinarySwitch :=
  if s.state then
    { state := false, m_just_switched_off := true, m_just_switched_on := false }
  else
    { s with m_just_switched_off := false, state := false }

/-- Member `set` (hpp lines 96-102): dispatches on the incoming value. -/
def set (s : TemporalBinarySwitch) (value : Bool) : TemporalBinarySwitch :=
  if value then s.set_true else s.set_false

/-- Member `just_switched_on` (hpp line 142): a `const` member returning
`m_just_switched_on`. -/
def just_switched_on (s : TemporalBinarySwitch) : Bool × TemporalBinarySwitch :=
  (s.m_just_switched_on, s)

/-- Member `just_switched_off` (hpp line 150): a `const` member returning
`m_just_switched_off`. -/
def just_switched_off (s : TemporalBinarySwitch) : Bool × TemporalBinarySwitch :=
  (s.m_just_switched_off, s)

/-- Member `just_switched_on_temporal` (hpp lines 162-168): if the rise
flag is set, clear it and return `true`; otherwise return `false`. -/
def just_switched_on_temporal (s : TemporalBinarySwitch) : Bool × TemporalBinarySwitch :=
  if s.m_just_switched_on then
    (true, { s with m_just_switched_on := false })
  else
    (false, s)

/-- Member `just_switched_off_temporal` (hpp lines 178-184): if the fall
flag is set, clear it and return `true`; otherwise return `false`. -/
def just_switched_off_temporal (s : TemporalBinarySwitch) : Bool × TemporalBinarySwitch :=
  if s.m_just_switched_off then
    (true, { s with m_just_switched_off := false })
  else
    (false, s)

/-- Modelled from the spec: the operation `is_currently_on` listed in §4
and §6 of the spec has no counterpart in `src/temporal_binary_switch.hpp`
(the class exposes no accessor for `state`).  Per the spec it "returns
`state`. Pure read, no side effect." -/
def is_currently_on (s : TemporalBinarySwitch) : Bool × TemporalBinarySwitch :=
  (s.state, s)

/-- One public operation of the class, used to describe the states
reachable through arbitrary call sequences. -/
inductive Op where
  | setOn
  | setOff
  | setVal (value : Bool)
  | peekOn
  | peekOff
  | consumeOn
  | consumeOff
  | isOn
deriving DecidableEq, Repr

/-- Effect of one public operation on the switch value (any returned
boolean is discarded). -/
def run (s : TemporalBinarySwitch) (op : Op) : TemporalBinarySwitch :=
  match op with
  | Op.setOn => s.set_true
  | Op.setOff => s.set_false
  | Op.setVal v => s.set v
  | Op.peekOn => (s.just_switched_on).2
  | Op.peekOff => (s.just_switched_off).2
  | Op.consumeOn => (s.just_switched_on_temporal).2
  | Op.consumeOff => (s.just_switched_off_temporal).2
  | Op.isOn => (s.is_currently_on).2

/-- State reached from a freshly constructed switch after a sequence of
public operations. -/
def exec (ops : List Op) : TemporalBinarySwitch :=
  ops.foldl run init

/-- One step of the polling scenario of spec §8: feed one observed input
via `set`, then call both temporal (consuming) queries. -/
def scenarioStep (s : TemporalBinarySwitch) (v : Bool) :
    (Bool × Bool) × TemporalBinarySwitch :=
  let s1 := s.set v
  let r1 := s1.just_switched_on_temporal
  let r2 := (r1.2).just_switched_off_temporal
  ((r1.1, r2.1), r2.2)

/-- Run the polling scenario over a list of observed inputs, collecting
the pair of consuming-query results at each step. -/
def scenarioRun (s : TemporalBinarySwitch) : List Bool → List (Bool × Bool)
  | [] => []
  | v :: vs =>
    let step := scenarioStep s v
    step.1 :: scenarioRun step.2 vs

/-- Invariant tying each pending-edge flag to the current state: a
pending rise only coexists with the on state, a pending fall only with
the off state. -/
def FlagStateInv (s : TemporalBinarySwitch) : Prop :=
  (s.m_just_switched_on = true → s.state = true) ∧
  (s.m_just_switched_off = true → s.state = false)

instance (s : TemporalBinarySwitch) : Decidable (FlagStateInv s) := by
  unfold FlagStateInv
  infer_instance

lemma flagStateInv_init : FlagStateInv init := by
  constructor <;> intro h <;> simp [init] at h

lemma flagStateInv_run {s : TemporalBinarySwitch} (h : FlagStateInv s) (op : Op) :
    FlagStateInv (run s op) := by
  obtain ⟨st, r, f⟩ := s
  revert h
  cases op with
  | setOn => cases st <;> cases r <;> cases f <;> decide
  | setOff => cases st <;> cases r <;> cases f <;> decide
  | setVal v => cases v <;> cases st <;> cases r <;> cases f <;> decide
  | peekOn => cases st <;> cases r <;> cases f <;> decide
  | peekOff => cases st <;> cases r <;> cases f <;> decide
  | consumeOn => cases st <;> cases r <;> cases f <;> decide
  | consumeOff => cases st <;> cases r <;> cases f <;> decide
  | isOn => cases st <;> cases r <;> cases f <;> decide

lemma flagStateInv_foldl (ops : List Op) :
    ∀ s : TemporalBinarySwitch, FlagStateInv s → FlagStateInv (List.foldl run s ops) := by
  induction ops with
  | nil => intro s h; exact h
  | cons op rest ih =>
    intro s h
    exact ih (run s op) (flagStateInv_run h op)

lemma flagStateInv_exec (ops : List Op) : FlagStateInv (exec ops) :=
  flagStateInv_foldl ops init flagStateInv_init

end TemporalBinarySwitch

open TemporalBinarySwitch

/-- C1: for every prior state, `set_true` leaves `state = true`; if
`state` was false before the call, afterwards the rise flag is `true`
and the fall flag is `false`; if `state` was already true, afterwards
the rise flag is `false` and the fall flag is unchanged. -/
theorem set_true_postcondition (s : TemporalBinarySwitch) :
    (s.set_true).state = true ∧
    (s.state = false →
      (s.set_true).m_just_switched_on = true ∧
      (s.set_true).m_just_switched_off = false) ∧
    (s.state = true →
      (s.set_true).m_just_switched_on = false ∧
      (s.set_true).m_just_switched_off = s.m_just_switched_off) := by
  obtain ⟨st, r, f⟩ := s
  cases st <;> simp [set_true]

/-- Witness for C1: both branches of the postcondition evaluated on
concrete switches. -/
theorem set_true_postcondition_witness :
    ((init.set_true).m_just_switched_on = true ∧
     (init.set_true).m_just_switched_off = false) ∧
    ((init.set_true.set_true).m_just_switched_on = false ∧
     (init.set_true.set_true).m_just_switched_off =
       (init.set_true).m_just_switched_off) :=
  ⟨(set_true_postcondition init).2.1 rfl,
   (set_true_postcondition init.set_true).2.2 rfl⟩

/-- C2: for every prior state, `set_false` leaves `state = false`; if
`state` was true before the call, afterwards the fall flag is `true`
and the rise flag is `false`; if `state` was already false, afterwards
the fall flag is `false` and the rise flag is unchanged. -/
theorem set_false_postcondition (s : TemporalBinarySwitch) :
    (s.set_false).state = false ∧
    (s.state = true →
      (s.set_false).m_just_switched_off = true ∧
      (s.set_false).m_just_switched_on = false) ∧
    (s.state = false →
      (s.set_false).m_just_switched_off = false ∧
      (s.set_false).m_just_switched_on = s.m_just_switched_on) := by
  obtain ⟨st, r, f⟩ := s
  cases st <;> simp [set_false]

/-- Witness for C2: both branches of the postcondition evaluated on
concrete switches. -/
theorem set_false_postcondition_witness :
    ((init.set_true.set_false).m_just_switched_off = true ∧
     (init.set_true.set_false).m_just_switched_on = false) ∧
    ((init.set_false).m_just_switched_off = false ∧
     (init.set_false).m_just_switched_on = init.m_just_switched_on) :=
  ⟨(set_false_postcondition init.set_true).2.1 rfl,
   (set_false_postcondition init).2.2 rfl⟩

/-- C3: in every state reachable from the freshly constructed switch by
any sequence of public operations, the rise and fall flags are never
both true; equivalently `just_switched_on` and `just_switched_off`
never both return `true`. -/
theorem rose_fell_mutually_exclusive (ops : List TemporalBinarySwitch.Op) :
    ((exec ops).m_just_switched_on && (exec ops).m_just_switched_off) = false ∧
    (((exec ops).just_switched_on).1 && ((exec ops).just_switched_off).1) = false := by
  obtain ⟨h1, h2⟩ := flagStateInv_exec ops
  have hb : ((exec ops).m_just_switched_on && (exec ops).m_just_switched_off) = false := by
    cases hr : (exec ops).m_just_switched_on with
    | false => simp [hr]
    | true =>
      have hs := h1 hr
      cases hf : (exec ops).m_just_switched_off with
      | false => simp [hf]
      | true => exact absurd (h2 hf) (by simp [hs])
  exact ⟨hb, hb⟩

/-- C4: feeding the inputs `[false, false, true, true, false, false]`
to a fresh switch via `set`, and calling both consuming temporal
queries after each `set`, reports a rise exactly at step index 2 and a
fall exactly at step index 4. -/
theorem scenario_reports :
    scenarioRun init [false, false, true, true, false, false] =
      [(false, false), (false, false), (true, false),
       (false, false), (false, true), (false, false)] := by
  decide

/-- C5: `just_switched_on_temporal` returns the prior rise flag, leaves
the rise flag false afterwards, is a no-op when the flag was already
false, and an immediate second call returns false;
`just_switched_off_temporal` behaves symmetrically for the fall flag. -/
theorem temporal_consume_postcondition (s : TemporalBinarySwitch) :
    ((s.just_switched_on_temporal).1 = s.m_just_switched_on ∧
     ((s.just_switched_on_temporal).2).m_just_switched_on = false ∧
     (s.m_just_switched_on = false → (s.just_switched_on_temporal).2 = s) ∧
     (((s.just_switched_on_temporal).2).just_switched_on_temporal).1 = false) ∧
    ((s.just_switched_off_temporal).1 = s.m_just_switched_off ∧
     ((s.just_switched_off_temporal).2).m_just_switched_off = false ∧
     (s.m_just_switched_off = false → (s.just_switched_off_temporal).2 = s) ∧
     (((s.just_switched_off_temporal).2).just_switched_off_temporal).1 = false) := by
  obtain ⟨st, r, f⟩ := s
  cases r <;> cases f <;>
    simp [just_switched_on_temporal, just_switched_off_temporal]

/-- Witness for C5: the no-op branches evaluated on a fresh switch,
whose flags are false. -/
theorem temporal_consume_postcondition_witness :
    (init.just_switched_on_temporal).2 = init ∧
    (init.just_switched_off_temporal).2 = init :=
  ⟨(temporal_consume_postcondition init).1.2.2.1 rfl,
   (temporal_consume_postcondition init).2.2.2.1 rfl⟩

/-- C6: `just_switched_on` returns the current rise flag and leaves the
switch unchanged; `just_switched_off` does the same for the fall flag. -/
theorem peek_frame (s : TemporalBinarySwitch) :
    s.just_switched_on = (s.m_just_switched_on, s) ∧
    s.just_switched_off = (s.m_just_switched_off, s) :=
  ⟨rfl, rfl⟩

/-- C7: a freshly constructed switch has `state`, rise flag and fall
flag all false, so `is_currently_on`, `just_switched_on` and
`just_switched_off` all return `false` before any mutation. -/
theorem init_all_false :
    init.state = false ∧
    init.m_just_switched_on = false ∧
    init.m_just_switched_off = false ∧
    (init.is_currently_on).1 = false ∧
    (init.just_switched_on).1 = false ∧
    (init.just_switched_off).1 = false := by
  decide

/-- C8: `is_currently_on` (modelled from the spec, absent from the
header) returns the current `state` and leaves the switch unchanged. -/
theorem is_currently_on_pure (s : TemporalBinarySwitch) :
    (s.is_currently_on).1 = s.state ∧ (s.is_currently_on).2 = s :=
  ⟨rfl, rfl⟩

/-- C9: `set true` coincides with `set_true` and `set false` with
`set_false` on every prior state — the dispatcher adds no logic. -/
theorem set_dispatches (s : TemporalBinarySwitch) :
    s.set true = s.set_true ∧ s.set false = s.set_false :=
  ⟨rfl, rfl⟩

/-- C10: in every state reachable from the freshly constructed switch
by any sequence of public operations, a true rise flag implies
`state = true` and a true fall flag implies `state = false`. -/
theorem reachable_flag_implies_state (ops : List TemporalBinarySwitch.Op) :
    ((exec ops).m_just_switched_on = true → (exec ops).state = true) ∧
    ((exec ops).m_just_switched_off = true → (exec ops).state = false) :=
  flagStateInv_exec ops

/-- Witness for C10: both implications discharged on concrete call
sequences that set each flag. -/
theorem reachable_flag_implies_state_witness :
    (exec [TemporalBinarySwitch.Op.setOn]).state = true ∧
    (exec [TemporalBinarySwitch.Op.setOn, TemporalBinarySwitch.Op.setOff]).state = false :=
  ⟨(reachable_flag_implies_state [TemporalBinarySwitch.Op.setOn]).1 rfl,
   (reachable_flag_implies_state
      [TemporalBinarySwitch.Op.setOn, TemporalBinarySwitch.Op.setOff]).2 rfl⟩
